import Mathlib

/-!
Shallow embedding of the fungible-contract runtime of rgb-node
(`src/contracts/fungible/runtime.rs`): the request dispatch loop, the
issue/transfer/import handlers and the durable-first commit protocol
between the stash peer and the local asset cache.

External collaborators that are referenced by the runtime but whose code
is not part of this repository snapshot (the `Cache`/`FileCache` backend,
the `Processor` business logic, the lnpbp session/unmarshalling layer)
are modelled from the specification; each such definition carries a
doc comment beginning with "Modelled from the spec".  Machine integers
are modelled as `Nat` (no arithmetic in the embedded fragment overflows),
fallible operations as `Except`, and the four message channels as
explicit inputs/outputs: incoming messages are fields of an environment
record `Env`, outgoing messages and other observable effects are
collected in an event trace.
-/

/-- Abstract seal specification used as the reissuance control of an
inflatable issuance (the payload of `issue.inflatable`). -/
structure SealSpec where
  vout : Nat
  deriving DecidableEq, Repr

/-- Issue structure of an asset: `SingleIssue` for a fixed supply, or
`MultipleIssues` carrying a maximum supply and a reissuance control
(source: `IssueStructure` as constructed in `Runtime::rpc_issue`). -/
inductive IssueStructure where
  | singleIssue : IssueStructure
  | multipleIssues (maxSupply : Nat) (reissueControl : SealSpec) : IssueStructure
  deriving DecidableEq, Repr

/-- Genesis record: the canonical record of an asset creation, globally
addressed by its contract identifier.  The hash-derived identifier is
abstracted to a `Nat`. -/
structure Genesis where
  contractId : Nat
  deriving DecidableEq, Repr

/-- Asset record held by the cache, keyed by its contract identifier. -/
structure Asset where
  contractId : Nat
  ticker : String
  deriving DecidableEq, Repr

/-- The `Issue` request payload (source: `api::fungible::Issue`, as read
by `Runtime::rpc_issue`): ticker/title/description metadata, an optional
supply bound, an optional reissuance control, precision, allocations
(abstracted to their amounts) and a dust limit. -/
structure Issue where
  ticker : String
  title : String
  description : String
  supply : Option Nat
  inflatable : Option SealSpec
  precision : Nat
  allocate : List Nat
  dustLimit : Option Nat
  deriving DecidableEq, Repr

/-- The `Transfer` request payload (source: `api::fungible::TransferApi`):
a PSBT-like transaction skeleton (abstracted to a `Nat`), the contract id,
the amounts of the consumed inputs and the `ours`/`theirs` output
allocations (abstracted to their amounts). -/
structure TransferApi where
  psbt : Nat
  contractId : Nat
  inputs : List Nat
  ours : List Nat
  theirs : List Nat
  deriving DecidableEq, Repr

/-- API-level error types (source: `ApiErrorType`); only the variant used
by the fungible runtime is modelled. -/
inductive ApiErrorType where
  | missedArgument (request : String) (argument : String) : ApiErrorType
  deriving DecidableEq, Repr

/-- Service error domains (source: `ServiceErrorDomain`).  `storage` is
the domain raised by the commit protocol on a stash rejection and by the
cache backend; `api` wraps client/API errors; `schema` carries
processor-detected contract violations; `presentation` wraps
decode/unmarshall failures of wire messages. -/
inductive ServiceErrorDomain where
  | api (e : ApiErrorType) : ServiceErrorDomain
  | storage : ServiceErrorDomain
  | schema (msg : String) : ServiceErrorDomain
  | presentation (msg : String) : ServiceErrorDomain
  deriving DecidableEq, Repr

/-- Source attribution of a service error (source: `ServiceErrorSource`). -/
inductive ServiceErrorSource where
  | broker : ServiceErrorSource
  | stash : ServiceErrorSource
  | contract (name : String) : ServiceErrorSource
  deriving DecidableEq, Repr

/-- A fully attributed service error: a domain plus the service it is
attributed to (source: `ServiceError`). -/
structure ServiceError where
  domain : ServiceErrorDomain
  source : ServiceErrorSource
  deriving DecidableEq, Repr

/-- `ServiceError::from_rpc`: attributes an RPC unmarshalling failure to
the given error source. -/
def ServiceError.fromRpc (source : ServiceErrorSource) (msg : String) : ServiceError :=
  { domain := ServiceErrorDomain.presentation msg, source := source }

/-- `ServiceError::contract`: attributes a handler-level domain error to a
named contract service. -/
def ServiceError.contract (d : ServiceErrorDomain) (name : String) : ServiceError :=
  { domain := d, source := ServiceErrorSource.contract name }

/-- Reply sent back over a request/reply channel (source: `Reply`):
`success`, `failure` carrying an error, or `sync` carrying the exported
cache contents in the configured format (serialization abstracted: the
payload is the asset list itself). -/
inductive Reply where
  | success : Reply
  | failure (err : ServiceError) : Reply
  | sync (format : String) (data : List Asset) : Reply
  deriving DecidableEq, Repr

/-- Whether a reply is the `Failure` variant. -/
def Reply.isFailure : Reply → Bool
  | Reply.failure _ => true
  | _ => false

/-- Message sent to the stash peer over its request/reply channel
(source: `api::stash::Request`); the runtime only sends `AddGenesis`. -/
inductive StashRequest where
  | addGenesis (g : Genesis) : StashRequest
  deriving DecidableEq, Repr

/-- Client request variants (source: `api::fungible::Request`). -/
inductive Request where
  | issue (i : Issue) : Request
  | transfer (t : TransferApi) : Request
  | importAsset (g : Genesis) : Request
  | sync : Request
  deriving DecidableEq, Repr

/-- Observable events of one request-handling step, in chronological
order: a message sent to the stash peer, a reply received from the stash
peer, an invocation of the processor, an attempted cache insert (with its
outcome), and the reply sent back to the client. -/
inductive Event where
  | stashSend (m : StashRequest) : Event
  | stashRecv (r : Reply) : Event
  | processorCall : Event
  | cacheInsert (id : Nat) (ok : Bool) : Event
  | clientSend (r : Reply) : Event
  deriving DecidableEq, Repr

/-- The asset cache state: the set of cached assets, as a list keyed by
contract id (insertion only ever prepends a fresh id). -/
abbrev Cache := List Asset

/-- Whether the cache already holds an asset with the given contract id. -/
def Cache.containsId (c : Cache) (id : Nat) : Bool :=
  c.any fun a => a.contractId == id

/-- Modelled from the spec: `Cache::asset` of the cache backend (not in
this snapshot) — lookup by contract id, failing with a storage-domain
error when the id is absent. -/
def Cache.asset (c : Cache) (id : Nat) : Except ServiceErrorDomain Asset :=
  match c.find? (fun a => a.contractId == id) with
  | some a => Except.ok a
  | none => Except.error ServiceErrorDomain.storage

/-- Modelled from the spec: `Cache::add_asset` of the cache backend (not
in this snapshot) — inserts the asset keyed by its contract id and
returns whether the id was newly inserted; inserting an existing id is a
no-op. -/
def Cache.add_asset (c : Cache) (a : Asset) : Bool × Cache :=
  if Cache.containsId c a.contractId then (false, c) else (true, a :: c)

/-- Modelled from the spec: `Cache::export` of the cache backend (not in
this snapshot) — exports the whole cache contents; serialization is
abstracted, the export is the asset list itself. -/
def Cache.exportAll (c : Cache) : List Asset := c

/-- Environment of one request-handling step: the outcome of receiving
on the client request channel (transport error, or a raw message that
either fails to unmarshall or decodes to a `Request`), the outcome of the
send on the client channel, the stash peer round trip (transport/decode
failure or the decoded stash `Reply`), whether the cache backend write
fails, and the configuration fields the handlers read. -/
structure Env where
  clientRecv : Except String (Except String Request)
  clientSendRes : Except String Unit
  stashRaw : Except String Reply
  cacheFails : Bool
  format : String
  network : String

/-- Modelled from the spec: deterministic stand-in for the hash
commitment deriving a contract id from the genesis data. -/
def genesisIdOf (network ticker title : String) (precision : Nat) : Nat :=
  network.length + 37 * ticker.length + 1369 * title.length + 50653 * precision

/-- Modelled from the spec: `Processor::issue` (not in this snapshot) —
pure construction of the genesis and initial asset record from the issue
arguments; performs no I/O and always succeeds on arguments that passed
the runtime-level validation. -/
def Processor.issue (network ticker title description : String)
    (s : IssueStructure) (allocate : List Nat) (precision : Nat)
    (dust : Option Nat) : Except ServiceErrorDomain (Asset × Genesis) :=
  let g : Genesis := { contractId := genesisIdOf network ticker title precision }
  Except.ok ({ contractId := g.contractId, ticker := ticker }, g)

/-- Consignment artifact produced by a transfer (abstracted to the data
the transfer computed it from). -/
structure Consignment where
  inputs : List Nat
  ours : List Nat
  theirs : List Nat
  deriving DecidableEq, Repr

/-- Modelled from the spec: `Processor::transfer` (not in this snapshot)
— enforces amount conservation (the output allocations to `ours` and
`theirs` must not exceed the consumed input amounts, violations are a
contract-domain error) and returns the annotated transaction skeleton
together with the consignment artifact; performs no I/O. -/
def Processor.transfer (a : Asset) (psbt : Nat)
    (inputs ours theirs : List Nat) :
    Except ServiceErrorDomain (Nat × Consignment) :=
  if ours.sum + theirs.sum ≤ inputs.sum then
    Except.ok (psbt, { inputs := inputs, ours := ours, theirs := theirs })
  else
    Except.error (ServiceErrorDomain.schema "amount conservation violated")

/-- Modelled from the spec: `Asset::try_from(Genesis)` (not in this
snapshot) — reconstructs an asset record purely from a genesis record. -/
def Asset.ofGenesis (g : Genesis) : Asset :=
  { contractId := g.contractId, ticker := "" }

/-- `Asset::try_from` returning `Result`, as used by
`Runtime::rpc_import_asset`. -/
def Asset.tryFromGenesis (g : Genesis) : Except ServiceErrorDomain Asset :=
  Except.ok (Asset.ofGenesis g)

/-- `Runtime::import_asset` (runtime.rs lines 246-259): encode and send
`AddGenesis` to the stash peer, block for its reply; a transport/decode
failure of the round trip aborts with a presentation error, a `Failure`
reply aborts with a storage-domain error; only otherwise is the asset
inserted into the cache (a failing cache write is a storage-domain
error), and the "newly inserted" flag is returned. -/
def Runtime.import_asset (env : Env) (cache : Cache) (asset : Asset)
    (genesis : Genesis) :
    Except ServiceErrorDomain Bool × Cache × List Event :=
  let sendEv := Event.stashSend (StashRequest.addGenesis genesis)
  match env.stashRaw with
  | Except.error e =>
      (Except.error (ServiceErrorDomain.presentation e), cache, [sendEv])
  | Except.ok r =>
      match r with
      | Reply.failure _ =>
          (Except.error ServiceErrorDomain.storage, cache,
            [sendEv, Event.stashRecv r])
      | _ =>
          if env.cacheFails then
            (Except.error ServiceErrorDomain.storage, cache,
              [sendEv, Event.stashRecv r,
                Event.cacheInsert asset.contractId false])
          else
            let p := Cache.add_asset cache asset
            (Except.ok p.1, p.2,
              [sendEv, Event.stashRecv r,
                Event.cacheInsert asset.contractId true])

/-- `Runtime::rpc_issue` (runtime.rs lines 177-210): build the issue
structure — an inflatable issuance without a supply bound fails with a
missing-argument API error before anything else happens — then run the
processor and the commit protocol, discarding the "newly inserted" flag,
and reply `Success`. -/
def Runtime.rpc_issue (env : Env) (cache : Cache) (issue : Issue) :
    Except ServiceErrorDomain Reply × Cache × List Event :=
  match issue.inflatable with
  | none =>
      match Processor.issue env.network issue.ticker issue.title
          issue.description IssueStructure.singleIssue issue.allocate
          issue.precision issue.dustLimit with
      | Except.error e => (Except.error e, cache, [Event.processorCall])
      | Except.ok (asset, genesis) =>
          match Runtime.import_asset env cache asset genesis with
          | (Except.error e, c, tr) =>
              (Except.error e, c, Event.processorCall :: tr)
          | (Except.ok _, c, tr) =>
              (Except.ok Reply.success, c, Event.processorCall :: tr)
  | some sealSpec =>
      match issue.supply with
      | none =>
          (Except.error (ServiceErrorDomain.api
            (ApiErrorType.missedArgument "Issue" "supply")), cache, [])
      | some s =>
          match Processor.issue env.network issue.ticker issue.title
              issue.description (IssueStructure.multipleIssues s sealSpec)
              issue.allocate issue.precision issue.dustLimit with
          | Except.error e => (Except.error e, cache, [Event.processorCall])
          | Except.ok (asset, genesis) =>
              match Runtime.import_asset env cache asset genesis with
              | (Except.error e, c, tr) =>
                  (Except.error e, c, Event.processorCall :: tr)
              | (Except.ok _, c, tr) =>
                  (Except.ok Reply.success, c, Event.processorCall :: tr)

/-- `Runtime::rpc_transfer` (runtime.rs lines 212-231): look up the asset
by contract id in the cache (a miss is a storage-domain error), run the
processor on a clone of it, and reply `Success`; the computed consignment
is discarded (its persistence is a follow-up step) and neither the stash
peer nor the cache is touched. -/
def Runtime.rpc_transfer (env : Env) (cache : Cache) (t : TransferApi) :
    Except ServiceErrorDomain Reply × Cache × List Event :=
  match Cache.asset cache t.contractId with
  | Except.error e => (Except.error e, cache, [])
  | Except.ok asset =>
      match Processor.transfer asset t.psbt t.inputs t.ours t.theirs with
      | Except.error e => (Except.error e, cache, [Event.processorCall])
      | Except.ok _consignment =>
          (Except.ok Reply.success, cache, [Event.processorCall])

/-- `Runtime::rpc_sync` (runtime.rs lines 233-237): export the cache
contents in the configured format; purely local. -/
def Runtime.rpc_sync (env : Env) (cache : Cache) :
    Except ServiceErrorDomain Reply × Cache × List Event :=
  (Except.ok (Reply.sync env.format (Cache.exportAll cache)), cache, [])

/-- `Runtime::rpc_import_asset` (runtime.rs lines 239-244): reconstruct
the asset from the genesis and run the commit protocol, discarding the
"newly inserted" flag, and reply `Success`. -/
def Runtime.rpc_import_asset (env : Env) (cache : Cache) (g : Genesis) :
    Except ServiceErrorDomain Reply × Cache × List Event :=
  match Asset.tryFromGenesis g with
  | Except.error e => (Except.error e, cache, [])
  | Except.ok asset =>
      match Runtime.import_asset env cache asset g with
      | (Except.error e, c, tr) => (Except.error e, c, tr)
      | (Except.ok _, c, tr) => (Except.ok Reply.success, c, tr)

/-- `Runtime::rpc_process` (runtime.rs lines 161-175): unmarshall the raw
request — a decode failure becomes a `ServiceError` attributed to the
`Stash` error source — then dispatch to the matching handler, wrapping
any handler-level domain error as a `ServiceError` attributed to the
"fungible" contract. -/
def Runtime.rpc_process (env : Env) (cache : Cache)
    (raw : Except String Request) :
    Except ServiceError Reply × Cache × List Event :=
  match raw with
  | Except.error s =>
      (Except.error (ServiceError.fromRpc ServiceErrorSource.stash s),
        cache, [])
  | Except.ok req =>
      let r :=
        match req with
        | Request.issue i => Runtime.rpc_issue env cache i
        | Request.transfer t => Runtime.rpc_transfer env cache t
        | Request.importAsset g => Runtime.rpc_import_asset env cache g
        | Request.sync => Runtime.rpc_sync env cache
      match r with
      | (Except.ok rep, c, tr) => (Except.ok rep, c, tr)
      | (Except.error d, c, tr) =>
          (Except.error (ServiceError.contract d "fungible"), c, tr)

/-- Errors that escape one iteration of the server loop (source:
`RuntimeError`); in this fragment only transport-level socket failures
of the client session reach it. -/
inductive RuntimeError where
  | transport (msg : String) : RuntimeError
  deriving DecidableEq, Repr

/-- `Runtime::run` (runtime.rs lines 147-159): receive one raw message on
the client channel (a transport failure propagates), process it — a
processing error is itself a reply (`unwrap_or_else`) — and send the
encoded reply back (a transport failure propagates). -/
def runStep (env : Env) (cache : Cache) :
    Except RuntimeError Unit × Cache × List Event :=
  match env.clientRecv with
  | Except.error s => (Except.error (RuntimeError.transport s), cache, [])
  | Except.ok raw =>
      let (res, c, tr) := Runtime.rpc_process env cache raw
      let reply :=
        match res with
        | Except.ok r => r
        | Except.error e => Reply.failure e
      match env.clientSendRes with
      | Except.error s => (Except.error (RuntimeError.transport s), c, tr)
      | Except.ok _ =>
          (Except.ok (), c, tr ++ [Event.clientSend reply])

/-- `Runtime::try_run_loop` (runtime.rs lines 133-143) over an explicit
finite schedule of per-iteration environments: keep running `run` while
it succeeds; the first error terminates the loop with that error. -/
def tryRunLoop : List Env → Cache → Except RuntimeError Cache × List Event
  | [], cache => (Except.ok cache, [])
  | env :: rest, cache =>
      match runStep env cache with
      | (Except.ok _, c, tr) =>
          let (res, tr2) := tryRunLoop rest c
          (res, tr ++ tr2)
      | (Except.error e, _, tr) => (Except.error e, tr)

/-- The stash messages among a trace of events: what actually went out on
the stash request channel. -/
def stashSends (tr : List Event) : List StashRequest :=
  tr.filterMap fun e =>
    match e with
    | Event.stashSend m => some m
    | _ => none

/-- Whether a trace contains a cache-insert attempt. -/
def hasCacheInsert (tr : List Event) : Bool :=
  tr.any fun e =>
    match e with
    | Event.cacheInsert _ _ => true
    | _ => false

/-- Whether a trace contains a processor invocation. -/
def hasProcessorCall (tr : List Event) : Bool :=
  tr.any fun e =>
    match e with
    | Event.processorCall => true
    | _ => false

/-- Scanner state for `commitOrdered`: walks the trace left to right,
remembering whether a non-failure stash reply has been received and
whether a cache insert has succeeded; a cache-insert attempt before a
non-failure stash reply, or a `Success` client reply before a successful
cache insert, fails the check. -/
def commitOrderedGo (stashOk insertOk : Bool) : List Event → Bool
  | [] => true
  | e :: rest =>
      match e with
      | Event.stashRecv r =>
          commitOrderedGo (stashOk || !(Reply.isFailure r)) insertOk rest
      | Event.cacheInsert _ ok =>
          stashOk && commitOrderedGo stashOk (insertOk || ok) rest
      | Event.clientSend Reply.success =>
          insertOk && commitOrderedGo stashOk insertOk rest
      | _ => commitOrderedGo stashOk insertOk rest

/-- The commit-protocol ordering discipline over a trace: every cache
insert happens only after a non-failure stash reply, and a `Success`
reply reaches the client only after a cache insert has succeeded. -/
def commitOrdered (tr : List Event) : Bool :=
  commitOrderedGo false false tr

/-- Whether a client request runs the commit protocol (issue and
import-asset do; transfer and sync do not). -/
def Request.isCommit : Request → Bool
  | Request.issue _ => true
  | Request.importAsset _ => true
  | _ => false

/-- Environment builder used by concrete witnesses: a given client
message, client send outcome `Ok`, a given stash round-trip outcome, a
given cache-write outcome, fixed configuration. -/
def mkEnv (raw : Except String (Except String Request))
    (stash : Except String Reply) (cacheFails : Bool) : Env :=
  { clientRecv := raw, clientSendRes := Except.ok (), stashRaw := stash,
    cacheFails := cacheFails, format := "json", network := "testnet" }

/-- Concrete asset used by witnesses. -/
def assetA : Asset := { contractId := 7, ticker := "USDX" }

/-- Concrete genesis record used by witnesses, matching `assetA`. -/
def genA : Genesis := { contractId := 7 }

/-- Concrete single-issue request used by witnesses. -/
def issueA : Issue :=
  { ticker := "USDX", title := "USD token", description := "",
    supply := some 1000, inflatable := none, precision := 2,
    allocate := [1000], dustLimit := none }

/-- Concrete inflatable issue request missing its supply bound, used by
witnesses. -/
def issueNoSupply : Issue :=
  { ticker := "USDX", title := "USD token", description := "",
    supply := none, inflatable := some { vout := 0 }, precision := 2,
    allocate := [1000], dustLimit := none }

/-- Concrete inflatable issue request carrying its supply bound, used by
witnesses. -/
def issueInfl : Issue :=
  { ticker := "USDX", title := "USD token", description := "",
    supply := some 1000, inflatable := some { vout := 0 }, precision := 2,
    allocate := [1000], dustLimit := none }

/-- Concrete transfer request used by witnesses: consumes 100, allocates
60 to `ours` and 40 to `theirs`. -/
def transferA : TransferApi :=
  { psbt := 0, contractId := 7, inputs := [100], ours := [60],
    theirs := [40] }

/-- Concrete conservation-violating transfer used by witnesses: consumes
100 but allocates 80 + 40. -/
def transferBad : TransferApi :=
  { psbt := 0, contractId := 7, inputs := [100], ours := [80],
    theirs := [40] }

/-- Concrete previously cached asset whose contract id equals the id the
processor derives for `issueA` under the witness configuration. -/
def assetDup : Asset :=
  { contractId := genesisIdOf "testnet" "USDX" "USD token" 2, ticker := "OLD" }

/-- A cache miss: when no cached asset carries the id, lookup fails with
the storage-domain error. -/
theorem Cache.asset_of_not_containsId (c : Cache) (id : Nat)
    (h : Cache.containsId c id = false) :
    Cache.asset c id = Except.error ServiceErrorDomain.storage := by
  unfold Cache.asset
  have hfind : c.find? (fun a => a.contractId == id) = none := by
    rw [List.find?_eq_none]
    intro a ha
    have := (List.any_eq_false).1 h a ha
    simpa using this
  rw [hfind]

/-- After inserting an asset, the cache contains its contract id. -/
theorem Cache.containsId_add_asset (c : Cache) (a : Asset) :
    Cache.containsId (Cache.add_asset c a).2 a.contractId = true := by
  unfold Cache.add_asset
  by_cases h : Cache.containsId c a.contractId = true
  · rw [if_pos h]
    exact h
  · rw [if_neg h]
    simp [Cache.containsId]

/-- Inserting an already-cached contract id is a no-op returning
`false`. -/
theorem Cache.add_asset_of_containsId (c : Cache) (a : Asset)
    (h : Cache.containsId c a.contractId = true) :
    Cache.add_asset c a = (false, c) := by
  unfold Cache.add_asset
  rw [if_pos h]

/-- Commit protocol on an already-cached contract id: with an accepting
stash peer and a healthy cache backend it completes, reports "not newly
inserted" and leaves the cache unchanged. -/
theorem Runtime.import_asset_duplicate (env : Env) (cache : Cache)
    (a : Asset) (g : Genesis)
    (hstash : env.stashRaw = Except.ok Reply.success)
    (hcf : env.cacheFails = false)
    (hdup : Cache.containsId cache a.contractId = true) :
    Runtime.import_asset env cache a g
      = (Except.ok false, cache,
          [Event.stashSend (StashRequest.addGenesis g),
            Event.stashRecv Reply.success,
            Event.cacheInsert a.contractId true]) := by
  unfold Runtime.import_asset
  rw [hstash, hcf]
  simp [Cache.add_asset_of_containsId cache a hdup]

/-- Claim C1: when the stash peer answers the `AddGenesis` command with a
`Failure` reply, `import_asset` aborts with the storage-domain error and
the cache is left unchanged; in particular, if the contract id was not
already cached, a subsequent cache lookup by that id still fails — the
asset was never inserted. -/
theorem import_asset_stash_failure_aborts (env : Env) (cache : Cache)
    (a : Asset) (g : Genesis) (f : ServiceError)
    (hs : env.stashRaw = Except.ok (Reply.failure f)) :
    (Runtime.import_asset env cache a g).1
      = Except.error ServiceErrorDomain.storage
  ∧ (Runtime.import_asset env cache a g).2.1 = cache
  ∧ (Cache.containsId cache a.contractId = false →
      Cache.asset (Runtime.import_asset env cache a g).2.1 a.contractId
        = Except.error ServiceErrorDomain.storage) := by
  unfold Runtime.import_asset
  rw [hs]
  refine ⟨rfl, rfl, fun h => ?_⟩
  exact Cache.asset_of_not_containsId cache a.contractId h

/-- Witness for claim C1 at a concrete rejected commit: stash reply is a
failure, the empty cache did not contain the id, and afterwards the
lookup still fails. -/
theorem import_asset_stash_failure_aborts_witness :
    ((mkEnv (Except.ok (Except.ok (Request.importAsset genA)))
        (Except.ok (Reply.failure
          (ServiceError.contract ServiceErrorDomain.storage "stash")))
        false).stashRaw
      = Except.ok (Reply.failure
          (ServiceError.contract ServiceErrorDomain.storage "stash")))
  ∧ ((Runtime.import_asset
        (mkEnv (Except.ok (Except.ok (Request.importAsset genA)))
          (Except.ok (Reply.failure
            (ServiceError.contract ServiceErrorDomain.storage "stash")))
          false) [] assetA genA).1
      = Except.error ServiceErrorDomain.storage
    ∧ (Runtime.import_asset
        (mkEnv (Except.ok (Except.ok (Request.importAsset genA)))
          (Except.ok (Reply.failure
            (ServiceError.contract ServiceErrorDomain.storage "stash")))
          false) [] assetA genA).2.1 = []
    ∧ (Cache.containsId [] assetA.contractId = false →
        Cache.asset (Runtime.import_asset
          (mkEnv (Except.ok (Except.ok (Request.importAsset genA)))
            (Except.ok (Reply.failure
              (ServiceError.contract ServiceErrorDomain.storage "stash")))
            false) [] assetA genA).2.1 assetA.contractId
          = Except.error ServiceErrorDomain.storage)) :=
  ⟨rfl, import_asset_stash_failure_aborts _ [] assetA genA _ rfl⟩

/-- Claim C4: an issue request with a reissuance control but no supply
bound is rejected with the missing-argument client error naming
"supply"; the cache is untouched and the handler trace is empty, so the
processor is never invoked and zero messages go out on the stash
channel. -/
theorem issue_missing_supply_rejected (env : Env) (cache : Cache)
    (i : Issue) (sp : SealSpec)
    (hinf : i.inflatable = some sp) (hsup : i.supply = none) :
    (Runtime.rpc_issue env cache i).1
      = Except.error (ServiceErrorDomain.api
          (ApiErrorType.missedArgument "Issue" "supply"))
  ∧ (Runtime.rpc_issue env cache i).2.1 = cache
  ∧ stashSends (Runtime.rpc_issue env cache i).2.2 = []
  ∧ hasProcessorCall (Runtime.rpc_issue env cache i).2.2 = false := by
  unfold Runtime.rpc_issue
  rw [hinf, hsup]
  exact ⟨rfl, rfl, rfl, rfl⟩

/-- Witness for claim C4 at the concrete inflatable issue without a
supply bound. -/
theorem issue_missing_supply_rejected_witness :
    (issueNoSupply.inflatable = some { vout := 0 }
      ∧ issueNoSupply.supply = none)
  ∧ ((Runtime.rpc_issue
        (mkEnv (Except.ok (Except.ok (Request.issue issueNoSupply)))
          (Except.ok Reply.success) false) [] issueNoSupply).1
      = Except.error (ServiceErrorDomain.api
          (ApiErrorType.missedArgument "Issue" "supply"))
    ∧ (Runtime.rpc_issue
        (mkEnv (Except.ok (Except.ok (Request.issue issueNoSupply)))
          (Except.ok Reply.success) false) [] issueNoSupply).2.1 = []
    ∧ stashSends (Runtime.rpc_issue
        (mkEnv (Except.ok (Except.ok (Request.issue issueNoSupply)))
          (Except.ok Reply.success) false) [] issueNoSupply).2.2 = []
    ∧ hasProcessorCall (Runtime.rpc_issue
        (mkEnv (Except.ok (Except.ok (Request.issue issueNoSupply)))
          (Except.ok Reply.success) false) [] issueNoSupply).2.2 = false) :=
  ⟨⟨rfl, rfl⟩, issue_missing_supply_rejected _ [] issueNoSupply _ rfl rfl⟩

/-- Claim C5: the transfer handler performs no durable persistence: the
cache is never mutated, no message is sent on the stash channel and no
cache insert is even attempted, on every input. -/
theorem transfer_no_persistence (env : Env) (cache : Cache)
    (t : TransferApi) :
    (Runtime.rpc_transfer env cache t).2.1 = cache
  ∧ stashSends (Runtime.rpc_transfer env cache t).2.2 = []
  ∧ hasCacheInsert (Runtime.rpc_transfer env cache t).2.2 = false := by
  unfold Runtime.rpc_transfer
  split
  · exact ⟨rfl, rfl, rfl⟩
  · split
    · exact ⟨rfl, rfl, rfl⟩
    · exact ⟨rfl, rfl, rfl⟩

/-- Claim C7: inserting the same contract id twice leaves the cache in
the state reached after the first insert, and the second insert reports
"not newly inserted". -/
theorem add_asset_idempotent (c : Cache) (a b : Asset)
    (h : b.contractId = a.contractId) :
    (Cache.add_asset (Cache.add_asset c a).2 b).2 = (Cache.add_asset c a).2
  ∧ (Cache.add_asset (Cache.add_asset c a).2 b).1 = false := by
  have hc : Cache.containsId (Cache.add_asset c a).2 b.contractId = true := by
    rw [h]
    exact Cache.containsId_add_asset c a
  rw [Cache.add_asset_of_containsId _ b hc]
  exact ⟨rfl, rfl⟩

/-- Witness for claim C7: a double insert of the same concrete asset into
the empty cache. -/
theorem add_asset_idempotent_witness :
    (assetA.contractId = assetA.contractId)
  ∧ ((Cache.add_asset (Cache.add_asset [] assetA).2 assetA).2
      = (Cache.add_asset [] assetA).2
    ∧ (Cache.add_asset (Cache.add_asset [] assetA).2 assetA).1 = false) :=
  ⟨rfl, add_asset_idempotent [] assetA assetA rfl⟩

/-- Claim C10: a raw client message that fails to unmarshall is turned
into a failure attributed to the `Stash` error source, although it
arrived on the client request channel. -/
theorem decode_failure_attributed_to_stash (env : Env) (cache : Cache)
    (s : String) :
    (Runtime.rpc_process env cache (Except.error s)).1
      = Except.error (ServiceError.fromRpc ServiceErrorSource.stash s)
  ∧ (ServiceError.fromRpc ServiceErrorSource.stash s).source
      = ServiceErrorSource.stash := by
  exact ⟨rfl, rfl⟩

/-- Claim C3: a transfer whose `ours` + `theirs` output allocations
exceed the consumed input amounts is rejected with the amount
conservation error, attributed at the dispatch boundary to the fungible
contract domain, and no message is sent to the stash peer. -/
theorem transfer_conservation_violation_rejected (env : Env)
    (cache : Cache) (t : TransferApi) (a : Asset)
    (ha : Cache.asset cache t.contractId = Except.ok a)
    (hviol : t.inputs.sum < t.ours.sum + t.theirs.sum) :
    (Runtime.rpc_process env cache (Except.ok (Request.transfer t))).1
      = Except.error (ServiceError.contract
          (ServiceErrorDomain.schema "amount conservation violated")
          "fungible")
  ∧ stashSends
      (Runtime.rpc_process env cache
        (Except.ok (Request.transfer t))).2.2 = [] := by
  have hT : Processor.transfer a t.psbt t.inputs t.ours t.theirs
      = Except.error
          (ServiceErrorDomain.schema "amount conservation violated") := by
    unfold Processor.transfer
    rw [if_neg (by omega)]
  constructor
  · simp [Runtime.rpc_process, Runtime.rpc_transfer, ha, hT]
  · simp [Runtime.rpc_process, Runtime.rpc_transfer, ha, hT, stashSends]

/-- Witness for claim C3 at the concrete violating transfer: 100 units
consumed, 80 + 40 allocated. -/
theorem transfer_conservation_violation_rejected_witness :
    (Cache.asset [assetA] transferBad.contractId = Except.ok assetA
      ∧ transferBad.inputs.sum
          < transferBad.ours.sum + transferBad.theirs.sum)
  ∧ ((Runtime.rpc_process
        (mkEnv (Except.ok (Except.ok (Request.transfer transferBad)))
          (Except.ok Reply.success) false) [assetA]
        (Except.ok (Request.transfer transferBad))).1
      = Except.error (ServiceError.contract
          (ServiceErrorDomain.schema "amount conservation violated")
          "fungible")
    ∧ stashSends
        (Runtime.rpc_process
          (mkEnv (Except.ok (Except.ok (Request.transfer transferBad)))
            (Except.ok Reply.success) false) [assetA]
          (Except.ok (Request.transfer transferBad))).2.2 = []) :=
  ⟨⟨rfl, by decide⟩,
    transfer_conservation_violation_rejected _ [assetA] transferBad assetA
      rfl (by decide)⟩

/-- Claim C8: a transfer naming a contract id absent from the cache is
rejected by the dispatcher with the storage-domain failure attributed to
the fungible contract, with no message on the stash channel; and on the
full loop iteration the client is sent exactly that failure reply. -/
theorem transfer_unknown_contract_rejected (env : Env) (cache : Cache)
    (t : TransferApi)
    (h : Cache.containsId cache t.contractId = false) :
    (Runtime.rpc_process env cache (Except.ok (Request.transfer t))).1
      = Except.error
          (ServiceError.contract ServiceErrorDomain.storage "fungible")
  ∧ stashSends
      (Runtime.rpc_process env cache
        (Except.ok (Request.transfer t))).2.2 = []
  ∧ (env.clientRecv = Except.ok (Except.ok (Request.transfer t)) →
      env.clientSendRes = Except.ok () →
      (runStep env cache).2.2
        = [Event.clientSend (Reply.failure
            (ServiceError.contract ServiceErrorDomain.storage
              "fungible"))]) := by
  have hA := Cache.asset_of_not_containsId cache t.contractId h
  refine ⟨?_, ?_, ?_⟩
  · simp [Runtime.rpc_process, Runtime.rpc_transfer, hA]
  · simp [Runtime.rpc_process, Runtime.rpc_transfer, hA, stashSends]
  · intro h1 h2
    simp [runStep, h1, h2, Runtime.rpc_process, Runtime.rpc_transfer, hA]

/-- Witness for claim C8: a transfer against the empty cache. -/
theorem transfer_unknown_contract_rejected_witness :
    (Cache.containsId [] transferA.contractId = false)
  ∧ ((Runtime.rpc_process
        (mkEnv (Except.ok (Except.ok (Request.transfer transferA)))
          (Except.ok Reply.success) false) []
        (Except.ok (Request.transfer transferA))).1
      = Except.error
          (ServiceError.contract ServiceErrorDomain.storage "fungible")
    ∧ stashSends
        (Runtime.rpc_process
          (mkEnv (Except.ok (Except.ok (Request.transfer transferA)))
            (Except.ok Reply.success) false) []
          (Except.ok (Request.transfer transferA))).2.2 = []
    ∧ ((mkEnv (Except.ok (Except.ok (Request.transfer transferA)))
          (Except.ok Reply.success) false).clientRecv
            = Except.ok (Except.ok (Request.transfer transferA)) →
        (mkEnv (Except.ok (Except.ok (Request.transfer transferA)))
          (Except.ok Reply.success) false).clientSendRes = Except.ok () →
        (runStep (mkEnv (Except.ok (Except.ok (Request.transfer transferA)))
          (Except.ok Reply.success) false) []).2.2
          = [Event.clientSend (Reply.failure
              (ServiceError.contract ServiceErrorDomain.storage
                "fungible"))])) :=
  ⟨rfl, transfer_unknown_contract_rejected _ [] transferA rfl⟩

/-- Claim C9: when the committed contract id is already cached (and the
stash peer accepts, the cache backend is healthy), the client still gets
`Reply::Success`, indistinguishable from a first-time commit:
`import_asset` returns the "not newly inserted" flag `false`, and both
`rpc_import_asset` and `rpc_issue` discard it and reply `Success` with
the cache unchanged — for every issue request that passes validation,
whether single-issue or inflatable with its supply bound. -/
theorem duplicate_commit_still_success (env : Env) (cache : Cache)
    (g : Genesis) (i : Issue)
    (hstash : env.stashRaw = Except.ok Reply.success)
    (hcf : env.cacheFails = false)
    (hdupg : Cache.containsId cache g.contractId = true)
    (hval : i.inflatable = none ∨ ∃ n, i.supply = some n)
    (hdupi : Cache.containsId cache
        (genesisIdOf env.network i.ticker i.title i.precision) = true) :
    (Runtime.import_asset env cache (Asset.ofGenesis g) g).1
      = Except.ok false
  ∧ (Runtime.rpc_import_asset env cache g).1 = Except.ok Reply.success
  ∧ (Runtime.rpc_import_asset env cache g).2.1 = cache
  ∧ (Runtime.rpc_issue env cache i).1 = Except.ok Reply.success
  ∧ (Runtime.rpc_issue env cache i).2.1 = cache := by
  have hg := Runtime.import_asset_duplicate env cache (Asset.ofGenesis g) g
    hstash hcf (by simpa [Asset.ofGenesis] using hdupg)
  have hi := Runtime.import_asset_duplicate env cache
    { contractId := genesisIdOf env.network i.ticker i.title i.precision,
      ticker := i.ticker }
    { contractId := genesisIdOf env.network i.ticker i.title i.precision }
    hstash hcf (by simpa using hdupi)
  have hIssue : (Runtime.rpc_issue env cache i).1 = Except.ok Reply.success
      ∧ (Runtime.rpc_issue env cache i).2.1 = cache := by
    rcases hval with hinf | ⟨n, hsup⟩
    · constructor <;> simp [Runtime.rpc_issue, hinf, Processor.issue, hi]
    · rcases hinf : i.inflatable with _ | sp
      · constructor <;> simp [Runtime.rpc_issue, hinf, Processor.issue, hi]
      · constructor <;>
          simp [Runtime.rpc_issue, hinf, hsup, Processor.issue, hi]
  refine ⟨?_, ?_, ?_, hIssue.1, hIssue.2⟩
  · rw [hg]
  · simp [Runtime.rpc_import_asset, Asset.tryFromGenesis, hg]
  · simp [Runtime.rpc_import_asset, Asset.tryFromGenesis, hg]

/-- Witness for claim C9: the cache already holds `genA`'s id and the id
the processor derives for `issueInfl` — an inflatable issue carrying its
supply bound; both duplicate commits still succeed. -/
theorem duplicate_commit_still_success_witness :
    ((mkEnv (Except.ok (Except.ok (Request.importAsset genA)))
        (Except.ok Reply.success) false).stashRaw
      = Except.ok Reply.success
    ∧ (mkEnv (Except.ok (Except.ok (Request.importAsset genA)))
        (Except.ok Reply.success) false).cacheFails = false
    ∧ Cache.containsId [assetA, assetDup] genA.contractId = true
    ∧ (issueInfl.inflatable = none ∨ ∃ n, issueInfl.supply = some n)
    ∧ Cache.containsId [assetA, assetDup]
        (genesisIdOf
          (mkEnv (Except.ok (Except.ok (Request.importAsset genA)))
            (Except.ok Reply.success) false).network
          issueInfl.ticker issueInfl.title issueInfl.precision) = true)
  ∧ ((Runtime.import_asset
        (mkEnv (Except.ok (Except.ok (Request.importAsset genA)))
          (Except.ok Reply.success) false)
        [assetA, assetDup] (Asset.ofGenesis genA) genA).1
      = Except.ok false
    ∧ (Runtime.rpc_import_asset
        (mkEnv (Except.ok (Except.ok (Request.importAsset genA)))
          (Except.ok Reply.success) false)
        [assetA, assetDup] genA).1 = Except.ok Reply.success
    ∧ (Runtime.rpc_import_asset
        (mkEnv (Except.ok (Except.ok (Request.importAsset genA)))
          (Except.ok Reply.success) false)
        [assetA, assetDup] genA).2.1 = [assetA, assetDup]
    ∧ (Runtime.rpc_issue
        (mkEnv (Except.ok (Except.ok (Request.importAsset genA)))
          (Except.ok Reply.success) false)
        [assetA, assetDup] issueInfl).1 = Except.ok Reply.success
    ∧ (Runtime.rpc_issue
        (mkEnv (Except.ok (Except.ok (Request.importAsset genA)))
          (Except.ok Reply.success) false)
        [assetA, assetDup] issueInfl).2.1 = [assetA, assetDup]) :=
  ⟨⟨rfl, rfl, by decide, Or.inr ⟨1000, rfl⟩, by decide⟩,
    duplicate_commit_still_success _ [assetA, assetDup] genA issueInfl
      rfl rfl (by decide) (Or.inr ⟨1000, rfl⟩) (by decide)⟩

/-- Claim C2: on any loop iteration whose decoded request runs the commit
protocol (issue or import-asset), the event trace is commit-ordered: a
cache insert is attempted only after a non-failure stash reply was
received, and `Success` is sent to the client only after the cache
insert succeeded. -/
theorem commit_protocol_ordering (env : Env) (cache : Cache)
    (req : Request)
    (hreq : env.clientRecv = Except.ok (Except.ok req))
    (hc : Request.isCommit req = true) :
    commitOrdered (runStep env cache).2.2 = true := by
  obtain ⟨recv, send, stash, cf, fmt, net⟩ := env
  simp only at hreq
  subst hreq
  cases req with
  | transfer t => simp [Request.isCommit] at hc
  | sync => simp [Request.isCommit] at hc
  | issue i =>
      obtain ⟨tick, title, descr, sup, infl, prec, alloc, dust⟩ := i
      rcases infl with _ | sp <;> rcases sup with _ | n <;>
        rcases stash with s | r <;> try cases r
      all_goals rcases send with s2 | u
      all_goals cases cf
      all_goals
        simp [runStep, Runtime.rpc_process, Runtime.rpc_issue,
          Runtime.import_asset, Processor.issue, commitOrdered,
          commitOrderedGo, Reply.isFailure]
  | importAsset g =>
      rcases stash with s | r <;> try cases r
      all_goals rcases send with s2 | u
      all_goals cases cf
      all_goals
        simp [runStep, Runtime.rpc_process, Runtime.rpc_import_asset,
          Asset.tryFromGenesis, Runtime.import_asset, commitOrdered,
          commitOrderedGo, Reply.isFailure]

/-- Witness for claim C2 at a concrete accepted issuance. -/
theorem commit_protocol_ordering_witness :
    ((mkEnv (Except.ok (Except.ok (Request.issue issueA)))
        (Except.ok Reply.success) false).clientRecv
      = Except.ok (Except.ok (Request.issue issueA))
    ∧ Request.isCommit (Request.issue issueA) = true)
  ∧ commitOrdered
      (runStep (mkEnv (Except.ok (Except.ok (Request.issue issueA)))
        (Except.ok Reply.success) false) []).2.2 = true :=
  ⟨⟨rfl, rfl⟩,
    commit_protocol_ordering _ [] (Request.issue issueA) rfl rfl⟩

/-- Claim C6: error policy of the server loop.  Whatever the received
raw message decodes to (including a decode failure or any handler
error), as long as the client socket works the iteration returns `Ok`
and the loop continues with the next request; a decode failure in
particular is answered with a `Failure` reply; every processing error —
the decode failure as well as any handler-level error — is converted
into exactly that `Failure` reply sent to the client; only a
transport-level socket failure makes the iteration — and hence the loop
— return the error. -/
theorem server_loop_error_policy (env : Env) (cache : Cache)
    (es : List Env) :
    (∀ raw, env.clientRecv = Except.ok raw →
      env.clientSendRes = Except.ok () →
        (runStep env cache).1 = Except.ok ()
      ∧ (tryRunLoop (env :: es) cache).1
          = (tryRunLoop es (runStep env cache).2.1).1)
  ∧ (∀ s, env.clientRecv = Except.ok (Except.error s) →
      env.clientSendRes = Except.ok () →
        (runStep env cache).2.2
          = [Event.clientSend (Reply.failure
              (ServiceError.fromRpc ServiceErrorSource.stash s))])
  ∧ (∀ s, env.clientRecv = Except.error s →
        (runStep env cache).1 = Except.error (RuntimeError.transport s)
      ∧ (tryRunLoop (env :: es) cache).1
          = Except.error (RuntimeError.transport s))
  ∧ (∀ raw err c tr, env.clientRecv = Except.ok raw →
      env.clientSendRes = Except.ok () →
      Runtime.rpc_process env cache raw = (Except.error err, c, tr) →
        (runStep env cache).2.2
          = tr ++ [Event.clientSend (Reply.failure err)]) := by
  refine ⟨?_, ?_, ?_, ?_⟩
  · intro raw h1 h2
    rcases hR : Runtime.rpc_process env cache raw with ⟨res, c, tr⟩
    constructor
    · simp [runStep, h1, h2, hR]
    · simp [tryRunLoop, runStep, h1, h2, hR]
  · intro s h1 h2
    simp [runStep, h1, h2, Runtime.rpc_process]
  · intro s h1
    constructor
    · simp [runStep, h1]
    · simp [tryRunLoop, runStep, h1]
  · intro raw err c tr h1 h2 hR
    simp [runStep, h1, h2, hR]

/-- Witness for claim C6: a garbled message keeps the loop alive and is
answered with a failure reply; a handler-level error (the issue request
missing its supply bound) is likewise answered with exactly its failure
reply; a dead socket terminates the loop with a transport error. -/
theorem server_loop_error_policy_witness :
    ((mkEnv (Except.ok (Except.error "garbage"))
        (Except.ok Reply.success) false).clientRecv
      = Except.ok (Except.error "garbage"))
  ∧ (runStep (mkEnv (Except.ok (Except.error "garbage"))
      (Except.ok Reply.success) false) []).1 = Except.ok ()
  ∧ (runStep (mkEnv (Except.ok (Except.error "garbage"))
      (Except.ok Reply.success) false) []).2.2
      = [Event.clientSend (Reply.failure
          (ServiceError.fromRpc ServiceErrorSource.stash "garbage"))]
  ∧ (runStep (mkEnv (Except.ok (Except.ok (Request.issue issueNoSupply)))
      (Except.ok Reply.success) false) []).2.2
      = [Event.clientSend (Reply.failure
          (ServiceError.contract (ServiceErrorDomain.api
            (ApiErrorType.missedArgument "Issue" "supply")) "fungible"))]
  ∧ (runStep (mkEnv (Except.error "socket closed")
      (Except.ok Reply.success) false) []).1
      = Except.error (RuntimeError.transport "socket closed") :=
  ⟨rfl,
    ((server_loop_error_policy
        (mkEnv (Except.ok (Except.error "garbage"))
          (Except.ok Reply.success) false) [] []).1
      (Except.error "garbage") rfl rfl).1,
    (server_loop_error_policy
        (mkEnv (Except.ok (Except.error "garbage"))
          (Except.ok Reply.success) false) [] []).2.1
      "garbage" rfl rfl,
    (server_loop_error_policy
        (mkEnv (Except.ok (Except.ok (Request.issue issueNoSupply)))
          (Except.ok Reply.success) false) [] []).2.2.2
      (Except.ok (Request.issue issueNoSupply))
      (ServiceError.contract (ServiceErrorDomain.api
        (ApiErrorType.missedArgument "Issue" "supply")) "fungible")
      [] [] rfl rfl rfl,
    ((server_loop_error_policy
        (mkEnv (Except.error "socket closed")
          (Except.ok Reply.success) false) [] []).2.2.1
      "socket closed" rfl).1⟩
